import Mathlib

/-!
Verification of the FECD SmartFlow task-triage application (src/app.py)
against its natural-language specification.

The repository ships a single Streamlit script.  Its state-bearing logic
(`create_demands`, `get_access_token`, `fetch_emails`, `extract_email_data`,
and the fetch/submit branches of `main`) is embedded below as pure Lean
functions over explicit state.  The spec additionally describes an urgency
classifier (`classify`) and a ranker (`rank_pending`) for which no code
exists under src/; those are modelled from the spec's own words and proved
against the spec's stated properties.

Calendar dates are modelled as day numbers (`Int`), so the whole-day
difference `(d - today).days` of the spec is literally `d - today`.
Nondeterministic inputs of the Python code (uuid generation, wall-clock
reads, HTTP responses) are passed in as explicit parameters.
-/

namespace SmartFlow

/-- Modelled from the spec: the four discrete urgency tiers
(CRITICAL "VERMELHO", WARNING "AMARELO", OK "VERDE", UNSCHEDULED "AZUL").
No classifier code exists under src/. -/
inductive Tier where
  | CRITICAL
  | WARNING
  | OK
  | UNSCHEDULED
deriving DecidableEq, Repr

/-- Modelled from the spec: `classify(due_date, reference_today) -> Tier`.
UNSCHEDULED when the due date is absent; otherwise by the whole-day
difference `d - today`: CRITICAL when it is `<= 1` (overdue included),
WARNING when it is in `[2, 5]`, OK when it is `> 5`.  No classifier code
exists under src/. -/
def classify (due_date : Option Int) (reference_today : Int) : Tier :=
  match due_date with
  | none => Tier.UNSCHEDULED
  | some d =>
    if d - reference_today ≤ 1 then Tier.CRITICAL
    else if d - reference_today ≤ 5 then Tier.WARNING
    else Tier.OK

/-- C1: `classify` returns exactly one of four tiers according to the
whole-day difference: UNSCHEDULED when the due date is absent, CRITICAL when
the difference is at most 1 day (zero and negative included), WARNING when
it lies between 2 and 5 days inclusive, and OK when it is strictly greater
than 5 days. -/
theorem classify_four_tiers (d : Option Int) (t : Int) :
    (d = none → classify d t = Tier.UNSCHEDULED) ∧
    (∀ x, d = some x →
      ((x - t ≤ 1 → classify d t = Tier.CRITICAL) ∧
       (2 ≤ x - t → x - t ≤ 5 → classify d t = Tier.WARNING) ∧
       (5 < x - t → classify d t = Tier.OK))) := by
  constructor
  · rintro rfl
    rfl
  · rintro x rfl
    simp only [classify]
    refine ⟨fun h => ?_, fun h1 h2 => ?_, fun h => ?_⟩ <;>
      split_ifs <;> first | rfl | omega

/-- Concrete check of `classify_four_tiers`: a due date 8 days out is OK,
one 1 day out is CRITICAL, and an absent due date is UNSCHEDULED. -/
theorem classify_four_tiers_witness :
    classify (some 8) 0 = Tier.OK ∧
    classify (some 1) 0 = Tier.CRITICAL ∧
    classify none 0 = Tier.UNSCHEDULED :=
  ⟨((classify_four_tiers (some 8) 0).2 8 rfl).2.2 (by decide),
   ((classify_four_tiers (some 1) 0).2 1 rfl).1 (by decide),
   (classify_four_tiers none 0).1 rfl⟩

/-- Modelled from the spec: the Task record of the data model (action, project,
context, due_date, priority, completed); `urgency_tier` is derived, recomputed
via `classify`, so it is not stored here.  No task-store code exists under src/. -/
structure Task where
  action : String
  project : Option String
  context : String
  due_date : Option Int
  priority : Nat
  completed : Bool
deriving DecidableEq, Repr

/-- Modelled from the spec: the explicit severity-rank mapping
(CRITICAL > WARNING > OK > UNSCHEDULED, most severe gets the smallest rank),
demanded by the spec in place of an alphabetical comparison. -/
def severityRank : Tier → Nat
  | Tier.CRITICAL => 0
  | Tier.WARNING => 1
  | Tier.OK => 2
  | Tier.UNSCHEDULED => 3

/-- Modelled from the spec: sort key for the due date, ascending with absent
dates last (flag 1 after every flag 0). -/
def dueKey : Option Int → Nat × Int
  | none => (1, 0)
  | some d => (0, d)

/-- Modelled from the spec: the composite sort key of `rank_pending`
(severity rank, priority, due-date-absent flag, due date). -/
def taskKey (today : Int) (t : Task) : Nat × Nat × Nat × Int :=
  (severityRank (classify t.due_date today), t.priority,
   (dueKey t.due_date).1, (dueKey t.due_date).2)

/-- Lexicographic comparison of composite sort keys. -/
def lex4 (p q : Nat × Nat × Nat × Int) : Bool :=
  decide (p.1 < q.1 ∨ (p.1 = q.1 ∧ (p.2.1 < q.2.1 ∨ (p.2.1 = q.2.1 ∧
    (p.2.2.1 < q.2.2.1 ∨ (p.2.2.1 = q.2.2.1 ∧ p.2.2.2 ≤ q.2.2.2))))))

theorem lex4_trans (p q r : Nat × Nat × Nat × Int)
    (h1 : lex4 p q) (h2 : lex4 q r) : lex4 p r := by
  obtain ⟨a1, b1, c1, d1⟩ := p
  obtain ⟨a2, b2, c2, d2⟩ := q
  obtain ⟨a3, b3, c3, d3⟩ := r
  simp only [lex4, decide_eq_true_eq] at h1 h2 ⊢
  omega

theorem lex4_total (p q : Nat × Nat × Nat × Int) : lex4 p q || lex4 q p := by
  obtain ⟨a1, b1, c1, d1⟩ := p
  obtain ⟨a2, b2, c2, d2⟩ := q
  simp only [lex4, Bool.or_eq_true, decide_eq_true_eq]
  omega

theorem lex4_refl (p : Nat × Nat × Nat × Int) : lex4 p p := by
  obtain ⟨a1, b1, c1, d1⟩ := p
  simp [lex4]

/-- Task comparison used by the ranker: lexicographic on the composite key. -/
def keyLE (today : Int) (a b : Task) : Bool :=
  lex4 (taskKey today a) (taskKey today b)

theorem keyLE_trans (today : Int) :
    ∀ a b c, keyLE today a b → keyLE today b c → keyLE today a c :=
  fun _ _ _ h1 h2 => lex4_trans _ _ _ h1 h2

theorem keyLE_total (today : Int) : ∀ a b, keyLE today a b || keyLE today b a :=
  fun _ _ => lex4_total _ _

/-- The pending subset of a task sequence (`completed == false`), in order. -/
def pendingOf (ts : List Task) : List Task :=
  ts.filter (fun t => !t.completed)

/-- Modelled from the spec: `rank_pending(tasks, reference_today)` restricts to
pending tasks and stable-sorts by (recomputed urgency tier severity, priority
ascending, due date ascending with absent dates last).  No ranker code exists
under src/. -/
def rank_pending (ts : List Task) (today : Int) : List Task :=
  (pendingOf ts).mergeSort (keyLE today)

theorem rank_pending_pairwise (ts : List Task) (today : Int) :
    (rank_pending ts today).Pairwise (fun a b => keyLE today a b) :=
  List.sorted_mergeSort (keyLE_trans today) (keyLE_total today) (pendingOf ts)

theorem severityRank_injective (a b : Tier)
    (h : severityRank a = severityRank b) : a = b := by
  cases a <;> cases b <;> simp_all [severityRank]

/-- C2: in the output of `rank_pending`, whenever task `a` appears before task
`b` and their (recomputed) urgency tiers differ, `a` has the strictly more
severe tier — severity order CRITICAL > WARNING > OK > UNSCHEDULED, regardless
of priorities and due dates. -/
theorem rank_pending_severity_first (ts : List Task) (today : Int) (a b : Task)
    (hab : List.Sublist [a, b] (rank_pending ts today))
    (hne : classify a.due_date today ≠ classify b.due_date today) :
    severityRank (classify a.due_date today) <
      severityRank (classify b.due_date today) := by
  have hp : ([a, b] : List Task).Pairwise (fun x y => keyLE today x y) :=
    (rank_pending_pairwise ts today).sublist hab
  have h : keyLE today a b := (List.pairwise_cons.mp hp).1 b (by simp)
  have hsne : severityRank (classify a.due_date today) ≠
      severityRank (classify b.due_date today) :=
    fun hEq => hne (severityRank_injective _ _ hEq)
  simp only [keyLE, lex4, taskKey, decide_eq_true_eq] at h
  omega

/-- Due-date ordering of the spec: earlier date first, and an absent due date
sorts after any present one. -/
def dueLE : Option Int → Option Int → Prop
  | some a, some b => a ≤ b
  | none, some _ => False
  | _, _ => True

/-- C3: tie-breaks and stability of `rank_pending`.  For tasks `a` before `b`
in the output: equal urgency tiers force `a.priority ≤ b.priority`; equal tiers
and priorities force the due-date order (earlier date first, absent dates
last).  And two tasks equal on the whole composite key that appear in order in
the pending input appear in the same order in the output (the sort is
stable). -/
theorem rank_pending_tiebreak (ts : List Task) (today : Int) (a b : Task) :
    (List.Sublist [a, b] (rank_pending ts today) →
      (classify a.due_date today = classify b.due_date today →
        a.priority ≤ b.priority) ∧
      (classify a.due_date today = classify b.due_date today →
        a.priority = b.priority → dueLE a.due_date b.due_date)) ∧
    (taskKey today a = taskKey today b →
      List.Sublist [a, b] (pendingOf ts) →
      List.Sublist [a, b] (rank_pending ts today)) := by
  constructor
  · intro hab
    have hp : ([a, b] : List Task).Pairwise (fun x y => keyLE today x y) :=
      (rank_pending_pairwise ts today).sublist hab
    have h : keyLE today a b := (List.pairwise_cons.mp hp).1 b (by simp)
    constructor
    · intro heq
      simp only [keyLE, lex4, taskKey, decide_eq_true_eq, heq] at h
      omega
    · intro heq hpri
      simp only [keyLE, lex4, taskKey, decide_eq_true_eq, heq, hpri] at h
      rcases hda : a.due_date with _ | x <;> rcases hdb : b.due_date with _ | y <;>
        simp only [hda, hdb, dueKey, dueLE] at h ⊢ <;> omega
  · intro hk hsub
    have hle : keyLE today a b := by
      unfold keyLE
      rw [hk]
      exact lex4_refl _
    exact List.pair_sublist_mergeSort (keyLE_trans today) (keyLE_total today) hle hsub

/-- Sample pending task due tomorrow at the lowest priority number 4. -/
def tCrit : Task :=
  { action := "Check certificates", project := none, context := "at-office",
    due_date := some 1, priority := 4, completed := false }

/-- Sample pending task due in 10 days at the highest priority number 1. -/
def tOk : Task :=
  { action := "Reconcile", project := none, context := "at-office",
    due_date := some 10, priority := 1, completed := false }

/-- Sample pending task equal to `tCrit` on the whole sort key but with a
different action text. -/
def tCrit2 : Task :=
  { action := "Renew badge", project := none, context := "at-office",
    due_date := some 1, priority := 4, completed := false }

unseal List.merge List.mergeSort in
/-- Concrete check of `rank_pending_severity_first`: the CRITICAL task (due
tomorrow, priority 4) precedes the OK task (due in 10 days, priority 1) even
though its priority number is larger. -/
theorem rank_pending_severity_first_witness :
    severityRank (classify tCrit.due_date 0) < severityRank (classify tOk.due_date 0) :=
  rank_pending_severity_first [tOk, tCrit] 0 tCrit tOk (by decide) (by decide)

unseal List.merge List.mergeSort in
/-- Concrete check of `rank_pending_tiebreak`: two tasks with identical sort
keys keep their input order in the ranked output. -/
theorem rank_pending_tiebreak_witness :
    List.Sublist [tCrit, tCrit2] (rank_pending [tCrit, tOk, tCrit2] 0) :=
  (rank_pending_tiebreak [tCrit, tOk, tCrit2] 0 tCrit tCrit2).2 (by decide) (by decide)

/-! Embedding of the state-bearing code of src/app.py.  Python dict fields
that may be absent (`dict.get`) are `Option`-valued. -/

/-- A raw Microsoft Graph message as consumed by `extract_email_data`
(src/app.py lines 74-82): the `$select`ed fields subject, sender address,
receivedDateTime, bodyPreview and id. -/
structure Message where
  id : Option String
  subject : Option String
  senderAddress : Option String
  receivedDateTime : String
  bodyPreview : Option String
deriving DecidableEq, Repr

/-- A captured e-mail record as produced by `extract_email_data`
(src/app.py lines 74-82). -/
structure Email where
  ID_Email : Option String
  Assunto : Option String
  Remetente : String
  DataHora : String
  BodyPreview : String
deriving DecidableEq, Repr

/-- `extract_email_data` (src/app.py lines 74-82).  `fmt` stands for the pure
string transformation `pd.to_datetime(...).tz_convert(...).strftime(...)`
applied to `receivedDateTime`. -/
def extract_email_data (fmt : String → String) (message : Message) : Email :=
  { ID_Email := message.id
    Assunto := message.subject
    Remetente := message.senderAddress.getD "N/A"
    DataHora := fmt message.receivedDateTime
    BodyPreview := message.bodyPreview.getD "Sem pré-visualização" }

/-- A demand record as built by `create_demands` (src/app.py lines 95-102). -/
structure Demand where
  ID_Demanda : String
  Assunto : Option String
  Remetente : String
  Data_Criacao : String
  Status : String
  Prioridade : String
deriving DecidableEq, Repr

/-- One loop iteration of `create_demands` (src/app.py lines 94-103).
`newId` stands for `str(uuid.uuid4())[:8]` and `now` for the formatted
`datetime.now()`. -/
def mkDemand (newId : String) (now : String) (email : Email) : Demand :=
  { ID_Demanda := newId
    Assunto := email.Assunto
    Remetente := email.Remetente
    Data_Criacao := now
    Status := "A Fazer"
    Prioridade := "Média" }

/-- `create_demands` (src/app.py lines 86-107): builds one demand per selected
e-mail and `extend`s the session demand list with them.  `genId` supplies the
uuid of the i-th new demand. -/
def create_demands (genId : Nat → String) (now : String)
    (selected_emails : List Email) (demands : List Demand) : List Demand :=
  demands ++ (selected_emails.enum.map fun p => mkDemand (genId p.1) now p.2)

/-- The Status options offered by the demands table editor
(src/app.py line 238). -/
def statusOptions : List String :=
  ["A Fazer", "Em Andamento", "Concluída", "Cancelada"]

/-- The Prioridade options offered by the demands table editor
(src/app.py line 243). -/
def prioridadeOptions : List String :=
  ["Baixa", "Média", "Alta", "Urgente"]

/-- The session state of the app: captured e-mails and created demands
(src/app.py lines 124-128). -/
structure AppState where
  emails_data : List Email
  demands : List Demand
deriving DecidableEq, Repr

/-- `get_access_token` (src/app.py lines 20-38): a successful token request
returns the optional `access_token` field of the JSON body; a
`RequestException` (modelled as `Except.error`) yields `None`. -/
def get_access_token (resp : Except String (Option String)) : Option String :=
  match resp with
  | Except.ok tok => tok
  | Except.error _ => none

/-- `fetch_emails` (src/app.py lines 40-72): with no access token it returns
`[]`; otherwise a successful request returns the `value` list of the JSON
body and a `RequestException` yields `[]`. -/
def fetch_emails (access_token : Option String) (resp : Except String (List Message)) :
    List Message :=
  match access_token with
  | none => []
  | some _ =>
    match resp with
    | Except.ok v => v
    | Except.error _ => []

/-- The fetch-button branch of `main` (src/app.py lines 136-152): obtain a
token, fetch messages, and replace `emails_data` with the extracted records
(or clear it when nothing was fetched); `demands` is never touched. -/
def fetch_button (fmt : String → String) (tokenResp : Except String (Option String))
    (mailResp : Except String (List Message)) (s : AppState) : AppState :=
  match get_access_token tokenResp with
  | none => s
  | some tok =>
    let msgs := fetch_emails (some tok) mailResp
    if msgs.isEmpty then { s with emails_data := [] }
    else { s with emails_data := msgs.map (extract_email_data fmt) }

/-- The selection-submit branch of `main` (src/app.py lines 187-216).  `sel` is
the Select column aligned row-by-row with `emails_data`; the selected rows are
turned into demands via `create_demands` and their `ID_Email`s are filtered
out of the captured list.  With no selected row the state is unchanged (only a
warning is shown). -/
def submit_selection (genId : Nat → String) (now : String) (sel : List Bool)
    (s : AppState) : AppState :=
  let rows := s.emails_data.zip sel
  let selected_rows := rows.filter (fun p => p.2)
  if selected_rows.isEmpty then s
  else
    let emails_to_process := selected_rows.map (fun p => p.1)
    let selected_ids := emails_to_process.map (fun e => e.ID_Email)
    { emails_data := s.emails_data.filter (fun e => !(decide (e.ID_Email ∈ selected_ids)))
      demands := create_demands genId now emails_to_process s.demands }

/-- Sample captured e-mail with a non-empty subject. -/
def eFull : Email :=
  { ID_Email := some "msg-1", Assunto := some "Reconcile",
    Remetente := "alice@fecd.org", DataHora := "01/10/2025 09:00",
    BodyPreview := "please reconcile" }

/-- Sample captured e-mail whose subject (the task action text) is empty. -/
def eEmpty : Email :=
  { ID_Email := some "msg-2", Assunto := some "",
    Remetente := "bob@fecd.org", DataHora := "01/10/2025 10:00",
    BodyPreview := "no subject" }

/-- Sample captured e-mail distinct from `eFull`, used as the unselected row. -/
def eOther : Email :=
  { ID_Email := some "msg-3", Assunto := some "Check certificates",
    Remetente := "carol@fecd.org", DataHora := "01/10/2025 11:00",
    BodyPreview := "certs" }

/-- Sample pre-existing demand. -/
def dOld : Demand :=
  { ID_Demanda := "old-1", Assunto := some "Old item",
    Remetente := "dave@fecd.org", Data_Criacao := "30/09/2025 08:00",
    Status := "A Fazer", Prioridade := "Média" }

/-- C9: `create_demands` leaves every pre-existing demand record unchanged, at
its position and with its field values, and appends exactly one new demand per
selected e-mail: the j-th appended demand is built from the j-th selected
e-mail. -/
theorem create_demands_frame (genId : Nat → String) (now : String)
    (sel : List Email) (ds : List Demand) :
    (create_demands genId now sel ds).take ds.length = ds ∧
    ((create_demands genId now sel ds).drop ds.length).length = sel.length ∧
    ∀ j, (hj : j < sel.length) →
      ∀ (hj2 : j < ((create_demands genId now sel ds).drop ds.length).length),
      ((create_demands genId now sel ds).drop ds.length).get ⟨j, hj2⟩ =
        mkDemand (genId j) now (sel.get ⟨j, hj⟩) := by
  refine ⟨?_, ?_, ?_⟩
  · simp [create_demands, List.take_left]
  · simp [create_demands, List.drop_left]
  · intro j hj hj2
    simp [create_demands, List.drop_left, List.enum_eq_enumFrom,
      List.getElem_enumFrom]

/-- Concrete check of `create_demands_frame`: adding one e-mail on top of one
existing demand keeps the old demand at index 0 and builds the new demand at
index 0 of the appended suffix. -/
theorem create_demands_frame_witness :
    ((create_demands (fun _ => "id1") "now" [eFull] [dOld]).drop 1).get
        ⟨0, by decide⟩ = mkDemand "id1" "now" eFull :=
  (create_demands_frame (fun _ => "id1") "now" [eFull] [dOld]).2.2 0 (by decide)
    (by decide)

/-- C4 counterexample: `create_demands` does not validate the action text.
Submitting one selected e-mail whose Assunto is the empty string against an
empty store yields a store of size 1: a demand IS created, the store does not
stay unchanged. -/
theorem create_demands_empty_action_changes_store :
    (create_demands (fun _ => "id0") "now" [eEmpty] []).length = 1 ∧
    create_demands (fun _ => "id0") "now" [eEmpty] [] ≠ [] := by
  constructor
  · rfl
  · decide

/-- C4 (amended): `create_demands` performs no validation of the action field:
even when the e-mail's Assunto is the empty string or absent, exactly one
demand is still appended for it, without raising (the function is total). -/
theorem create_demands_no_validation (genId : Nat → String) (now : String)
    (e : Email) (ds : List Demand)
    (h : e.Assunto = some "" ∨ e.Assunto = none) :
    create_demands genId now [e] ds = ds ++ [mkDemand (genId 0) now e] := rfl

/-- Concrete check of `create_demands_no_validation`: the empty-subject e-mail
still becomes a demand. -/
theorem create_demands_no_validation_witness :
    create_demands (fun _ => "id0") "now" [eEmpty] [] =
      [mkDemand "id0" "now" eEmpty] :=
  create_demands_no_validation (fun _ => "id0") "now" eEmpty [] (Or.inl rfl)

/-- C5 counterexample: with one pre-existing demand, the newly created demand
appears at index 1, after the old one; the head of the collection is still the
old demand, so insertion is not at the head and order is not newest-first. -/
theorem create_demands_not_at_head :
    (create_demands (fun _ => "new-1") "t1" [eFull] [dOld]).get ⟨0, by decide⟩ =
      dOld ∧
    (create_demands (fun _ => "new-1") "t1" [eFull] [dOld]).get ⟨1, by decide⟩ =
      mkDemand "new-1" "t1" eFull ∧
    dOld ≠ mkDemand "new-1" "t1" eFull := by
  refine ⟨rfl, rfl, ?_⟩
  decide

/-- C5 (amended): `create_demands` appends new tasks at the tail of the ordered
collection (`list.extend`), so the collection's order is oldest-first: every
previously added demand appears before every newly created one. -/
theorem create_demands_appends_at_tail (genId : Nat → String) (now : String)
    (sel : List Email) (ds : List Demand) :
    (create_demands genId now sel ds).take ds.length = ds ∧
    (create_demands genId now sel ds).drop ds.length =
      sel.enum.map (fun p => mkDemand (genId p.1) now p.2) := by
  constructor
  · simp [create_demands, List.take_left]
  · simp [create_demands, List.drop_left]

/-- C6 counterexample: the priority field of a stored demand is the string
"Média", which is not the decimal numeral of any integer in [1, 4] — the
priority held in the store is not an integer in 1..4 at all. -/
theorem prioridade_not_an_integer :
    (mkDemand "id0" "t0" eFull).Prioridade = "Média" ∧
    ¬ ∃ n ∈ Finset.Icc (1 : Nat) 4,
        (mkDemand "id0" "t0" eFull).Prioridade = toString n := by
  constructor
  · rfl
  · decide

/-- C6 (amended): the priority field is a string drawn from the four labels
"Baixa", "Média", "Alta", "Urgente" offered by the table editor, with
"Urgente" the most critical; `create_demands` stamps "Média" on every new
demand and preserves membership of every stored demand's Prioridade in this
label set. -/
theorem prioridade_label_invariant (genId : Nat → String) (now : String)
    (sel : List Email) (ds : List Demand)
    (h : ∀ d ∈ ds, d.Prioridade ∈ prioridadeOptions) :
    ∀ d ∈ create_demands genId now sel ds, d.Prioridade ∈ prioridadeOptions := by
  intro d hd
  rw [create_demands, List.mem_append] at hd
  rcases hd with hd | hd
  · exact h d hd
  · rcases List.mem_map.mp hd with ⟨p, hp, rfl⟩
    simp [mkDemand, prioridadeOptions]

/-- Concrete check of `prioridade_label_invariant`: a freshly created demand's
priority label is one of the four allowed options. -/
theorem prioridade_label_invariant_witness :
    (mkDemand "id0" "t0" eFull).Prioridade ∈ prioridadeOptions :=
  prioridade_label_invariant (fun _ => "id0") "t0" [eFull] []
    (fun d hd => absurd hd (List.not_mem_nil d))
    (mkDemand "id0" "t0" eFull) (by decide)

/-- C7: every task created by the capture flow is created pending: each demand
appended by `create_demands` carries Status "A Fazer", the initial to-do
state (the `completed = false` of the spec's data model), for every input
e-mail record. -/
theorem created_demands_start_pending (genId : Nat → String) (now : String)
    (sel : List Email) (ds : List Demand) :
    ∀ d ∈ (create_demands genId now sel ds).drop ds.length,
      d.Status = "A Fazer" ∧ d.Status ≠ "Concluída" := by
  intro d hd
  rw [create_demands, List.drop_left] at hd
  rcases List.mem_map.mp hd with ⟨p, hp, rfl⟩
  refine ⟨rfl, ?_⟩
  show ("A Fazer" : String) ≠ "Concluída"
  decide

/-- Concrete check of `created_demands_start_pending`: the demand created from
the sample e-mail starts in "A Fazer". -/
theorem created_demands_start_pending_witness :
    (mkDemand "id0" "t0" eFull).Status = "A Fazer" ∧
    (mkDemand "id0" "t0" eFull).Status ≠ "Concluída" :=
  created_demands_start_pending (fun _ => "id0") "t0" [eFull] []
    (mkDemand "id0" "t0" eFull) (by decide)

/-- C8: every failed fetch — a token-request error, a missing access token, or
a mail-request error — yields zero candidate records from `fetch_emails`, and
the demands store is left unchanged by the whole fetch branch (no partial
record ever reaches it). -/
theorem failed_fetch_yields_no_records (fmt : String → String)
    (tokenResp : Except String (Option String))
    (mailResp : Except String (List Message)) (s : AppState)
    (h : get_access_token tokenResp = none ∨ ∃ e, mailResp = Except.error e) :
    fetch_emails (get_access_token tokenResp) mailResp = [] ∧
    (fetch_button fmt tokenResp mailResp s).demands = s.demands := by
  constructor
  · rcases h with h | ⟨e, rfl⟩
    · rw [h]
      rfl
    · rcases get_access_token tokenResp with _ | tok
      · rfl
      · rfl
  · rw [fetch_button]
    rcases get_access_token tokenResp with _ | tok
    · rfl
    · dsimp only
      split
      · rfl
      · rfl

/-- Concrete check of `failed_fetch_yields_no_records`: a failed token request
produces no candidate records and leaves the single stored demand alone. -/
theorem failed_fetch_yields_no_records_witness :
    fetch_emails (get_access_token (Except.error "timeout")) (Except.ok []) = [] ∧
    (fetch_button id (Except.error "timeout") (Except.ok [])
      { emails_data := [eFull], demands := [dOld] }).demands = [dOld] :=
  failed_fetch_yields_no_records id (Except.error "timeout") (Except.ok [])
    { emails_data := [eFull], demands := [dOld] } (Or.inl rfl)

/-- C10: submitting a selection removes every selected e-mail — identified by
its ID_Email, the identifiers being distinct across the captured list — from
the captured list and retains every unselected one, so a captured e-mail
cannot be converted into a demand twice across submissions. -/
theorem submit_selection_removes_exactly_selected (genId : Nat → String)
    (now : String) (sel : List Bool) (s : AppState)
    (hlen : sel.length = s.emails_data.length)
    (hnodup : (s.emails_data.map Email.ID_Email).Nodup) :
    ∀ i, (hi : i < s.emails_data.length) →
      (sel.get ⟨i, by omega⟩ = true →
        s.emails_data.get ⟨i, hi⟩ ∉ (submit_selection genId now sel s).emails_data) ∧
      (sel.get ⟨i, by omega⟩ = false →
        s.emails_data.get ⟨i, hi⟩ ∈ (submit_selection genId now sel s).emails_data) := by
  obtain ⟨es, ds⟩ := s
  dsimp only at hlen hnodup ⊢
  intro i hi
  have hiz : i < (es.zip sel).length := by
    rw [List.length_zip]
    omega
  have hrow : (es.zip sel).get ⟨i, hiz⟩ =
      (es.get ⟨i, hi⟩, sel.get ⟨i, by omega⟩) := by
    simp [List.getElem_zip]
  constructor
  · intro htrue
    have hmem_rows : (es.get ⟨i, hi⟩, true) ∈ es.zip sel := by
      have := List.get_mem (es.zip sel) i hiz
      rwa [hrow, htrue] at this
    have hmem_sr : (es.get ⟨i, hi⟩, true) ∈ (es.zip sel).filter (fun p => p.2) :=
      List.mem_filter.mpr ⟨hmem_rows, rfl⟩
    have hne : ((es.zip sel).filter (fun p => p.2)).isEmpty = false :=
      List.isEmpty_eq_false.mpr (List.ne_nil_of_mem hmem_sr)
    intro hmem
    simp only [submit_selection, hne, Bool.false_eq_true, if_false] at hmem
    have hpred := (List.mem_filter.mp hmem).2
    simp only [Bool.not_eq_true', decide_eq_false_iff_not] at hpred
    apply hpred
    exact List.mem_map.mpr ⟨es.get ⟨i, hi⟩,
      List.mem_map.mpr ⟨(es.get ⟨i, hi⟩, true), hmem_sr, rfl⟩, rfl⟩
  · intro hfalse
    by_cases hE : ((es.zip sel).filter (fun p => p.2)).isEmpty
    · simp only [submit_selection, hE, if_true]
      exact List.get_mem es i hi
    · simp only [submit_selection, hE, if_false]
      apply List.mem_filter.mpr
      refine ⟨List.get_mem es i hi, ?_⟩
      simp only [Bool.not_eq_true', decide_eq_false_iff_not]
      intro hid
      rcases List.mem_map.mp hid with ⟨e2, he2, hideq⟩
      rcases List.mem_map.mp he2 with ⟨p, hp, rfl⟩
      have hpmem := (List.mem_filter.mp hp).1
      have hptrue : p.2 = true := by
        have := (List.mem_filter.mp hp).2
        simpa using this
      rcases List.mem_iff_getElem.mp hpmem with ⟨j, hj, hjp⟩
      have hjlen : j < es.length := by
        rw [List.length_zip] at hj
        omega
      have hjp2 : p = (es.get ⟨j, hjlen⟩, sel.get ⟨j, by omega⟩) := by
        rw [← hjp]
        simp [List.getElem_zip]
      have hidj : (es.get ⟨j, hjlen⟩).ID_Email = (es.get ⟨i, hi⟩).ID_Email := by
        rw [hjp2] at hideq
        exact hideq
      have hij : j = i := by
        have hmap : (es.map Email.ID_Email).get ⟨j, by simpa using hjlen⟩ =
            (es.map Email.ID_Email).get ⟨i, by simpa using hi⟩ := by
          simp only [List.get_eq_getElem, List.getElem_map]
          simpa using hidj
        have hfin := hnodup.get_inj_iff.mp hmap
        simpa using hfin
      subst hij
      rw [hjp2] at hptrue
      simp only at hptrue
      rw [hfalse] at hptrue
      exact Bool.false_ne_true hptrue

/-- Concrete check of `submit_selection_removes_exactly_selected`: with two
captured e-mails of distinct ids and selection [true, false], the selected
first e-mail leaves the captured list and the unselected second one stays. -/
theorem submit_selection_removes_exactly_selected_witness :
    eFull ∉ (submit_selection (fun _ => "id0") "t0" [true, false]
        { emails_data := [eFull, eOther], demands := [] }).emails_data ∧
    eOther ∈ (submit_selection (fun _ => "id0") "t0" [true, false]
        { emails_data := [eFull, eOther], demands := [] }).emails_data :=
  ⟨(submit_selection_removes_exactly_selected (fun _ => "id0") "t0" [true, false]
      { emails_data := [eFull, eOther], demands := [] } (by decide) (by decide)
      0 (by decide)).1 rfl,
   (submit_selection_removes_exactly_selected (fun _ => "id0") "t0" [true, false]
      { emails_data := [eFull, eOther], demands := [] } (by decide) (by decide)
      1 (by decide)).2 rfl⟩

end SmartFlow
